import Mathlib

/-!
Verification of the rule-based abuse-detection logic of the EV charging
abuse-detection application (src/EV_charging.py).

Numeric slider inputs are modelled as rationals.  `detect_abuse_actions`
mirrors the Python function of the same name: the source starts from an
empty list and appends one category string per threshold check that holds,
in source order; here each check contributes a conditional singleton to a
concatenation, which yields the same list.  `ACTION_SUGGESTIONS` mirrors
the source dictionary as an association list in insertion order.
`load_artifacts` mirrors the three sequential artifact loads, with the
effectful `joblib.load` modelled as an explicit fallible loader argument.
The classifier feature row mirrors the positional list built for
`input_df`, with the loaded feature-name list labelling the columns.
-/

set_option linter.unusedVariables false

namespace EVCharging

/-- The rule evaluator of src/EV_charging.py (lines 36-71): each `if`
mirrors one `actions.append(...)` of the source, in source order. -/
def detect_abuse_actions
    (soc_end soc_diff charging_rate c_rate temperature thermal_load
     charging_duration battery_capacity energy_stress : ℚ) : List String :=
  (if temperature > 45 then ["High Temperature Charging"] else []) ++
  (if soc_end > 80 ∧ charging_rate > 50 then ["Fast Charging at High SoC"] else []) ++
  (if soc_end ≥ 95 then ["Overcharging"] else []) ++
  (if charging_duration > 6 then ["Overnight / Long Duration Charging"] else []) ++
  (if charging_rate > battery_capacity then ["High Power Charging on Low Capacity Battery"] else []) ++
  (if energy_stress > 3 then ["High Energy Stress Charging"] else []) ++
  (if c_rate > 0.8 then ["Excessive C-Rate Charging"] else []) ++
  (if thermal_load > 300 then ["Thermal Stress Due to Long Charging"] else [])

/-- The fixed eight-row condition/category table of the spec, in the
source's check order; the first component decides the row's condition. -/
def abuseTable
    (soc_end charging_rate c_rate temperature thermal_load
     charging_duration battery_capacity energy_stress : ℚ) : List (Bool × String) :=
  [ (decide (temperature > 45), "High Temperature Charging"),
    (decide (soc_end > 80 ∧ charging_rate > 50), "Fast Charging at High SoC"),
    (decide (soc_end ≥ 95), "Overcharging"),
    (decide (charging_duration > 6), "Overnight / Long Duration Charging"),
    (decide (charging_rate > battery_capacity), "High Power Charging on Low Capacity Battery"),
    (decide (energy_stress > 3), "High Energy Stress Charging"),
    (decide (c_rate > 0.8), "Excessive C-Rate Charging"),
    (decide (thermal_load > 300), "Thermal Stress Due to Long Charging") ]

/-- The fixed set of eight category strings, in display order. -/
def abuse_categories : List String :=
  [ "High Temperature Charging",
    "Fast Charging at High SoC",
    "Overcharging",
    "Overnight / Long Duration Charging",
    "High Power Charging on Low Capacity Battery",
    "High Energy Stress Charging",
    "Excessive C-Rate Charging",
    "Thermal Stress Due to Long Charging" ]

/-- The category-to-suggestion dictionary of src/EV_charging.py
(lines 76-100), as an association list in insertion order. -/
def ACTION_SUGGESTIONS : List (String × String) :=
  [ ("High Temperature Charging",
      "Pause charging until the battery temperature drops below 45°C."),
    ("Fast Charging at High SoC",
      "Switch to slow charging above 80% to reduce battery stress."),
    ("Overcharging",
      "Avoid charging beyond 90% for daily usage."),
    ("Overnight / Long Duration Charging",
      "Unplug the charger once charging is complete."),
    ("High Power Charging on Low Capacity Battery",
      "Use a charger compatible with your battery capacity."),
    ("High Energy Stress Charging",
      "Reduce charging power to minimize energy stress."),
    ("Excessive C-Rate Charging",
      "Decrease the Voltage to improve long-term battery health."),
    ("Thermal Stress Due to Long Charging",
      "Avoid long continuous charging sessions at high temperature.") ]

/-- The ten user inputs passed to the classifier. -/
structure ClassifierInputs where
  battery_capacity : ℚ
  energy_consumed : ℚ
  charging_duration : ℚ
  charging_rate : ℚ
  soc_end : ℚ
  temperature : ℚ
  soc_diff : ℚ
  energy_stress : ℚ
  c_rate : ℚ
  thermal_load : ℚ

/-- The single positional row of values built for `input_df`
(src/EV_charging.py lines 126-140), in the hard-coded source order. -/
def input_row (inp : ClassifierInputs) : List ℚ :=
  [ inp.battery_capacity,
    inp.energy_consumed,
    inp.charging_duration,
    inp.charging_rate,
    inp.soc_end,
    inp.temperature,
    inp.soc_diff,
    inp.energy_stress,
    inp.c_rate,
    inp.thermal_load ]

/-- The labelled data frame `input_df`: the loaded feature-name list
labels the positional row column by column. -/
def input_df (features : List String) (inp : ClassifierInputs) : List (String × ℚ) :=
  features.zip (input_row inp)

/-- The feature names in the order of spec section 3, which is the order
the source hard-codes for the row values. -/
def featureNames : List String :=
  [ "battery_capacity", "energy_consumed", "charging_duration",
    "charging_rate", "soc_end", "temperature", "soc_diff",
    "energy_stress", "c_rate", "thermal_load" ]

/-- The input a feature name refers to, for the ten section-3 names. -/
def valueOfName (inp : ClassifierInputs) : String → Option ℚ
  | "battery_capacity" => some inp.battery_capacity
  | "energy_consumed" => some inp.energy_consumed
  | "charging_duration" => some inp.charging_duration
  | "charging_rate" => some inp.charging_rate
  | "soc_end" => some inp.soc_end
  | "temperature" => some inp.temperature
  | "soc_diff" => some inp.soc_diff
  | "energy_stress" => some inp.energy_stress
  | "c_rate" => some inp.c_rate
  | "thermal_load" => some inp.thermal_load
  | _ => none

/-- `load_artifacts` (src/EV_charging.py lines 24-31): three sequential
`joblib.load` calls with no exception handling, modelled over an explicit
fallible loader; any load failure propagates unchanged. -/
def load_artifacts {α : Type} (loadFile : String → Except String α) :
    Except String (α × α × α) :=
  (loadFile "charging_abuse_model123.pkl").bind fun model =>
    (loadFile "scaler123.pkl").bind fun scaler =>
      (loadFile "features.pkl").bind fun features =>
        Except.ok (model, scaler, features)

lemma mem_ite_singleton {c : Prop} [Decidable c] {a s : String} :
    (a ∈ (if c then [s] else ([] : List String))) ↔ c ∧ a = s := by
  split_ifs with h <;> simp [h]

/-- Membership characterisation of the rule evaluator: a string is
returned exactly when it is the category of a satisfied table row. -/
lemma mem_detect_iff
    (soc_end soc_diff charging_rate c_rate temperature thermal_load
     charging_duration battery_capacity energy_stress : ℚ) (a : String) :
    a ∈ detect_abuse_actions soc_end soc_diff charging_rate c_rate
        temperature thermal_load charging_duration battery_capacity
        energy_stress ↔
      (temperature > 45 ∧ a = "High Temperature Charging") ∨
      ((soc_end > 80 ∧ charging_rate > 50) ∧ a = "Fast Charging at High SoC") ∨
      (soc_end ≥ 95 ∧ a = "Overcharging") ∨
      (charging_duration > 6 ∧ a = "Overnight / Long Duration Charging") ∨
      (charging_rate > battery_capacity ∧ a = "High Power Charging on Low Capacity Battery") ∨
      (energy_stress > 3 ∧ a = "High Energy Stress Charging") ∨
      (c_rate > (0.8 : ℚ) ∧ a = "Excessive C-Rate Charging") ∨
      (thermal_load > 300 ∧ a = "Thermal Stress Due to Long Charging") := by
  simp only [detect_abuse_actions, List.mem_append, mem_ite_singleton,
    or_assoc]

lemma filter_table_cons (b : Bool) (s : String) (l : List (Bool × String)) :
    (((b, s) :: l).filter Prod.fst).map Prod.snd =
      (if b = true then [s] else []) ++ (l.filter Prod.fst).map Prod.snd := by
  cases b <;> simp [List.filter_cons]

/-- C1: `detect_abuse_actions` returns exactly the categories of the
satisfied rows of the fixed eight-row table, in the table's order, each
at most once: the result is the filter of the fixed table by its
conditions, projected to the category names. -/
theorem detect_eq_table_filter
    (soc_end soc_diff charging_rate c_rate temperature thermal_load
     charging_duration battery_capacity energy_stress : ℚ) :
    detect_abuse_actions soc_end soc_diff charging_rate c_rate temperature
        thermal_load charging_duration battery_capacity energy_stress =
      ((abuseTable soc_end charging_rate c_rate temperature thermal_load
          charging_duration battery_capacity energy_stress).filter
        Prod.fst).map Prod.snd := by
  simp only [detect_abuse_actions, abuseTable, filter_table_cons,
    List.filter_nil, List.map_nil, List.append_nil, decide_eq_true_eq,
    List.append_assoc]

/-- C2: the rule evaluator is a total function (defined for all rational
inputs) and every element of its result is one of the eight fixed
category strings. -/
theorem detect_subset_categories
    (soc_end soc_diff charging_rate c_rate temperature thermal_load
     charging_duration battery_capacity energy_stress : ℚ) (a : String)
    (h : a ∈ detect_abuse_actions soc_end soc_diff charging_rate c_rate
        temperature thermal_load charging_duration battery_capacity
        energy_stress) :
    a ∈ abuse_categories := by
  rw [mem_detect_iff] at h
  simp only [abuse_categories, List.mem_cons, List.not_mem_nil, or_false]
  tauto

/-- C2 witness. -/
theorem detect_subset_categories_witness :
    "Overcharging" ∈ detect_abuse_actions 95 30 40 (3/5) 25 150 2 80 1 ∧
    "Overcharging" ∈ abuse_categories :=
  ⟨by decide,
   detect_subset_categories 95 30 40 (3/5) 25 150 2 80 1 "Overcharging"
     (by decide)⟩

/-- C3: with all other inputs fixed, temperature 46 triggers
"High Temperature Charging" and temperature 45 does not: the comparison
is strictly greater than 45. -/
theorem temperature_strict_boundary
    (soc_end soc_diff charging_rate c_rate thermal_load charging_duration
     battery_capacity energy_stress : ℚ) :
    "High Temperature Charging" ∈ detect_abuse_actions soc_end soc_diff
        charging_rate c_rate 46 thermal_load charging_duration
        battery_capacity energy_stress ∧
    "High Temperature Charging" ∉ detect_abuse_actions soc_end soc_diff
        charging_rate c_rate 45 thermal_load charging_duration
        battery_capacity energy_stress := by
  constructor
  · rw [mem_detect_iff]
    exact Or.inl ⟨by norm_num, rfl⟩
  · rw [mem_detect_iff]
    rintro (⟨hc, _⟩ | ⟨_, hs⟩ | ⟨_, hs⟩ | ⟨_, hs⟩ | ⟨_, hs⟩ | ⟨_, hs⟩ |
            ⟨_, hs⟩ | ⟨_, hs⟩)
    · exact absurd hc (by norm_num)
    all_goals exact absurd hs (by decide)

/-- C3 witness: the boundary theorem at one concrete setting of the
other inputs. -/
theorem temperature_strict_boundary_witness :
    "High Temperature Charging" ∈ detect_abuse_actions 55 30 40 (3/5) 46
        150 2 80 1 ∧
    "High Temperature Charging" ∉ detect_abuse_actions 55 30 40 (3/5) 45
        150 2 80 1 :=
  temperature_strict_boundary 55 30 40 (3/5) 150 2 80 1

/-- C4: with all other inputs fixed, soc_end 95 triggers "Overcharging"
and soc_end 94.999 does not: the comparison is greater-or-equal to 95. -/
theorem overcharging_ge_boundary
    (soc_diff charging_rate c_rate temperature thermal_load
     charging_duration battery_capacity energy_stress : ℚ) :
    "Overcharging" ∈ detect_abuse_actions 95 soc_diff charging_rate c_rate
        temperature thermal_load charging_duration battery_capacity
        energy_stress ∧
    "Overcharging" ∉ detect_abuse_actions 94.999 soc_diff charging_rate
        c_rate temperature thermal_load charging_duration battery_capacity
        energy_stress := by
  constructor
  · rw [mem_detect_iff]
    exact Or.inr (Or.inr (Or.inl ⟨by norm_num, rfl⟩))
  · rw [mem_detect_iff]
    rintro (⟨_, hs⟩ | ⟨_, hs⟩ | ⟨hc, _⟩ | ⟨_, hs⟩ | ⟨_, hs⟩ | ⟨_, hs⟩ |
            ⟨_, hs⟩ | ⟨_, hs⟩)
    · exact absurd hs (by decide)
    · exact absurd hs (by decide)
    · exact absurd hc (by norm_num)
    all_goals exact absurd hs (by decide)

/-- C4 witness: the boundary theorem at one concrete setting of the
other inputs. -/
theorem overcharging_ge_boundary_witness :
    "Overcharging" ∈ detect_abuse_actions 95 30 40 (3/5) 25 150 2 80 1 ∧
    "Overcharging" ∉ detect_abuse_actions 94.999 30 40 (3/5) 25 150 2 80
        1 :=
  overcharging_ge_boundary 30 40 (3/5) 25 150 2 80 1

/-- C5: with all other inputs fixed, soc_end 81 with charging_rate 51
triggers "Fast Charging at High SoC" and soc_end 80 with the same rate
does not: both conjuncts are strict and both must hold. -/
theorem fast_charging_conjunction_boundary
    (soc_diff c_rate temperature thermal_load charging_duration
     battery_capacity energy_stress : ℚ) :
    "Fast Charging at High SoC" ∈ detect_abuse_actions 81 soc_diff 51
        c_rate temperature thermal_load charging_duration battery_capacity
        energy_stress ∧
    "Fast Charging at High SoC" ∉ detect_abuse_actions 80 soc_diff 51
        c_rate temperature thermal_load charging_duration battery_capacity
        energy_stress := by
  constructor
  · rw [mem_detect_iff]
    exact Or.inr (Or.inl ⟨⟨by norm_num, by norm_num⟩, rfl⟩)
  · rw [mem_detect_iff]
    rintro (⟨_, hs⟩ | ⟨⟨hc, _⟩, _⟩ | ⟨_, hs⟩ | ⟨_, hs⟩ | ⟨_, hs⟩ |
            ⟨_, hs⟩ | ⟨_, hs⟩ | ⟨_, hs⟩)
    · exact absurd hs (by decide)
    · exact absurd hc (by norm_num)
    all_goals exact absurd hs (by decide)

/-- C5 witness: the boundary theorem at one concrete setting of the
other inputs. -/
theorem fast_charging_conjunction_boundary_witness :
    "Fast Charging at High SoC" ∈ detect_abuse_actions 81 30 51 (3/5) 25
        150 2 200 1 ∧
    "Fast Charging at High SoC" ∉ detect_abuse_actions 80 30 51 (3/5) 25
        150 2 200 1 :=
  fast_charging_conjunction_boundary 30 (3/5) 25 150 2 200 1

/-- C6: the suggestion lookup is total on the detector's range: every
category `detect_abuse_actions` can return has exactly one entry in
`ACTION_SUGGESTIONS`, so the guarded membership test before displaying a
suggestion never filters out a detected category. -/
theorem suggestions_total
    (soc_end soc_diff charging_rate c_rate temperature thermal_load
     charging_duration battery_capacity energy_stress : ℚ) (a : String)
    (h : a ∈ detect_abuse_actions soc_end soc_diff charging_rate c_rate
        temperature thermal_load charging_duration battery_capacity
        energy_stress) :
    (ACTION_SUGGESTIONS.filter (fun p => p.1 == a)).length = 1 ∧
    a ∈ ACTION_SUGGESTIONS.map Prod.fst := by
  rw [mem_detect_iff] at h
  rcases h with ⟨_, rfl⟩ | ⟨_, rfl⟩ | ⟨_, rfl⟩ | ⟨_, rfl⟩ | ⟨_, rfl⟩ |
    ⟨_, rfl⟩ | ⟨_, rfl⟩ | ⟨_, rfl⟩ <;>
    exact ⟨by decide, by decide⟩

/-- C6 witness. -/
theorem suggestions_total_witness :
    "High Temperature Charging" ∈ detect_abuse_actions 55 30 40 (3/5) 50
        150 2 80 1 ∧
    (ACTION_SUGGESTIONS.filter
        (fun p => p.1 == "High Temperature Charging")).length = 1 ∧
    "High Temperature Charging" ∈ ACTION_SUGGESTIONS.map Prod.fst :=
  ⟨by decide,
   suggestions_total 55 30 40 (3/5) 50 150 2 80 1
     "High Temperature Charging" (by decide)⟩

/-- A loaded feature-name list that is a permutation of the canonical
one but not in the section-3 order. -/
def swappedFeatures : List String :=
  [ "energy_consumed", "battery_capacity", "charging_duration",
    "charging_rate", "soc_end", "temperature", "soc_diff",
    "energy_stress", "c_rate", "thermal_load" ]

/-- A classifier input assignment with pairwise distinct values. -/
def inp0 : ClassifierInputs :=
  { battery_capacity := 1, energy_consumed := 2, charging_duration := 3,
    charging_rate := 4, soc_end := 5, temperature := 6, soc_diff := 7,
    energy_stress := 8, c_rate := 9, thermal_load := 10 }

/-- C7 counterexample: it is not the case that for every loaded
feature-name list the value placed at each position of `input_df` is the
input named by that position: the row is positional and only labelled by
the list, so a permuted list mislabels the values. -/
theorem input_df_not_named_by_arbitrary_list :
    ¬ (∀ (features : List String) (inp : ClassifierInputs),
        ∀ p ∈ input_df features inp, valueOfName inp p.1 = some p.2) := by
  intro h
  exact absurd
    (h swappedFeatures inp0 ("energy_consumed", 1) (by decide))
    (by decide)

/-- C7 amended: the single row is assembled in the fixed section-3
order, and when the loaded feature-name list is exactly the section-3
name list, the value at each position is the input named by that
position of the list. -/
theorem input_df_named_when_features_canonical
    (features : List String) (inp : ClassifierInputs)
    (hfeat : features = featureNames)
    (p : String × ℚ) (hp : p ∈ input_df features inp) :
    valueOfName inp p.1 = some p.2 ∧
    (input_df features inp).map Prod.snd = input_row inp := by
  subst hfeat
  refine ⟨?_, rfl⟩
  simp only [input_df, featureNames, input_row, List.zip, List.zipWith,
    List.mem_cons, List.not_mem_nil, or_false] at hp
  rcases hp with rfl | rfl | rfl | rfl | rfl | rfl | rfl | rfl | rfl |
    rfl <;> rfl

/-- C7 witness for the amended statement. -/
theorem input_df_named_when_features_canonical_witness :
    ("soc_end", (5 : ℚ)) ∈ input_df featureNames inp0 ∧
    valueOfName inp0 "soc_end" = some 5 :=
  ⟨by decide,
   (input_df_named_when_features_canonical featureNames inp0 rfl
     ("soc_end", 5) (by decide)).1⟩

/-- C8: `load_artifacts` succeeds exactly when each of the three
artifact loads succeeds, returning the triple of the three loaded
objects; any single load failure propagates unchanged as the overall
failure, with no partial result. -/
theorem load_artifacts_all_or_nothing {α : Type}
    (f : String → Except String α) :
    (∀ m s ft, load_artifacts f = Except.ok (m, s, ft) ↔
        f "charging_abuse_model123.pkl" = Except.ok m ∧
        f "scaler123.pkl" = Except.ok s ∧
        f "features.pkl" = Except.ok ft) ∧
    (∀ e, f "charging_abuse_model123.pkl" = Except.error e →
        load_artifacts f = Except.error e) ∧
    (∀ m e, f "charging_abuse_model123.pkl" = Except.ok m →
        f "scaler123.pkl" = Except.error e →
        load_artifacts f = Except.error e) ∧
    (∀ m s e, f "charging_abuse_model123.pkl" = Except.ok m →
        f "scaler123.pkl" = Except.ok s →
        f "features.pkl" = Except.error e →
        load_artifacts f = Except.error e) := by
  refine ⟨fun m s ft => ?_, fun e h1 => ?_, fun m e h1 h2 => ?_,
    fun m s e h1 h2 h3 => ?_⟩
  · cases hm : f "charging_abuse_model123.pkl" <;>
      cases hs : f "scaler123.pkl" <;>
      cases hf : f "features.pkl" <;>
      simp [load_artifacts, hm, hs, hf, Except.bind]
  · simp [load_artifacts, h1, Except.bind]
  · simp [load_artifacts, h1, h2, Except.bind]
  · simp [load_artifacts, h1, h2, h3, Except.bind]

/-- C8 witness. -/
theorem load_artifacts_all_or_nothing_witness :
    load_artifacts (fun _ => Except.ok (0 : ℕ)) = Except.ok (0, 0, 0) :=
  ((load_artifacts_all_or_nothing (fun _ => Except.ok (0 : ℕ))).1
    0 0 0).2 ⟨rfl, rfl, rfl⟩

/-- C9: `soc_diff` is accepted by the signature of
`detect_abuse_actions` but never read: the result is identical for any
two values of `soc_diff` with all other parameters equal. -/
theorem soc_diff_no_influence
    (soc_end soc_diff soc_diff' charging_rate c_rate temperature
     thermal_load charging_duration battery_capacity energy_stress : ℚ) :
    detect_abuse_actions soc_end soc_diff charging_rate c_rate temperature
        thermal_load charging_duration battery_capacity energy_stress =
    detect_abuse_actions soc_end soc_diff' charging_rate c_rate
        temperature thermal_load charging_duration battery_capacity
        energy_stress :=
  rfl

/-- Joint monotonicity of the rule evaluator: raising any of the seven
threshold inputs and lowering `battery_capacity` preserves every
detected category. -/
lemma detect_mono
    {soc_end soc_end' soc_diff charging_rate charging_rate' c_rate
     c_rate' temperature temperature' thermal_load thermal_load'
     charging_duration charging_duration' battery_capacity
     battery_capacity' energy_stress energy_stress' : ℚ}
    (hse : soc_end ≤ soc_end') (hcr : charging_rate ≤ charging_rate')
    (hc : c_rate ≤ c_rate') (ht : temperature ≤ temperature')
    (hth : thermal_load ≤ thermal_load')
    (hd : charging_duration ≤ charging_duration')
    (hb : battery_capacity' ≤ battery_capacity)
    (hes : energy_stress ≤ energy_stress') {a : String}
    (ha : a ∈ detect_abuse_actions soc_end soc_diff charging_rate c_rate
        temperature thermal_load charging_duration battery_capacity
        energy_stress) :
    a ∈ detect_abuse_actions soc_end' soc_diff charging_rate' c_rate'
        temperature' thermal_load' charging_duration' battery_capacity'
        energy_stress' := by
  rw [mem_detect_iff] at ha ⊢
  rcases ha with ⟨h, rfl⟩ | ⟨⟨h1, h2⟩, rfl⟩ | ⟨h, rfl⟩ | ⟨h, rfl⟩ |
    ⟨h, rfl⟩ | ⟨h, rfl⟩ | ⟨h, rfl⟩ | ⟨h, rfl⟩
  · exact Or.inl ⟨lt_of_lt_of_le h ht, rfl⟩
  · exact Or.inr (Or.inl
      ⟨⟨lt_of_lt_of_le h1 hse, lt_of_lt_of_le h2 hcr⟩, rfl⟩)
  · exact Or.inr (Or.inr (Or.inl ⟨le_trans h hse, rfl⟩))
  · exact Or.inr (Or.inr (Or.inr (Or.inl ⟨lt_of_lt_of_le h hd, rfl⟩)))
  · exact Or.inr (Or.inr (Or.inr (Or.inr (Or.inl
      ⟨lt_of_lt_of_le (lt_of_le_of_lt hb h) hcr, rfl⟩))))
  · exact Or.inr (Or.inr (Or.inr (Or.inr (Or.inr (Or.inl
      ⟨lt_of_lt_of_le h hes, rfl⟩)))))
  · exact Or.inr (Or.inr (Or.inr (Or.inr (Or.inr (Or.inr (Or.inl
      ⟨lt_of_lt_of_le h hc, rfl⟩))))))
  · exact Or.inr (Or.inr (Or.inr (Or.inr (Or.inr (Or.inr (Or.inr
      ⟨lt_of_lt_of_le h hth, rfl⟩))))))

/-- C10: category membership is monotone in each trigger input with the
others fixed: increasing temperature, soc_end, charging_rate,
charging_duration, energy_stress, c_rate, or thermal_load preserves
every detected category, and so does decreasing battery_capacity. -/
theorem detect_monotone_each_input
    (soc_end soc_diff charging_rate c_rate temperature thermal_load
     charging_duration battery_capacity energy_stress v v' : ℚ)
    (a : String) (hv : v ≤ v') :
    (a ∈ detect_abuse_actions soc_end soc_diff charging_rate c_rate v
        thermal_load charging_duration battery_capacity energy_stress →
     a ∈ detect_abuse_actions soc_end soc_diff charging_rate c_rate v'
        thermal_load charging_duration battery_capacity energy_stress) ∧
    (a ∈ detect_abuse_actions v soc_diff charging_rate c_rate temperature
        thermal_load charging_duration battery_capacity energy_stress →
     a ∈ detect_abuse_actions v' soc_diff charging_rate c_rate temperature
        thermal_load charging_duration battery_capacity energy_stress) ∧
    (a ∈ detect_abuse_actions soc_end soc_diff v c_rate temperature
        thermal_load charging_duration battery_capacity energy_stress →
     a ∈ detect_abuse_actions soc_end soc_diff v' c_rate temperature
        thermal_load charging_duration battery_capacity energy_stress) ∧
    (a ∈ detect_abuse_actions soc_end soc_diff charging_rate c_rate
        temperature thermal_load v battery_capacity energy_stress →
     a ∈ detect_abuse_actions soc_end soc_diff charging_rate c_rate
        temperature thermal_load v' battery_capacity energy_stress) ∧
    (a ∈ detect_abuse_actions soc_end soc_diff charging_rate c_rate
        temperature thermal_load charging_duration battery_capacity v →
     a ∈ detect_abuse_actions soc_end soc_diff charging_rate c_rate
        temperature thermal_load charging_duration battery_capacity v') ∧
    (a ∈ detect_abuse_actions soc_end soc_diff charging_rate v
        temperature thermal_load charging_duration battery_capacity
        energy_stress →
     a ∈ detect_abuse_actions soc_end soc_diff charging_rate v'
        temperature thermal_load charging_duration battery_capacity
        energy_stress) ∧
    (a ∈ detect_abuse_actions soc_end soc_diff charging_rate c_rate
        temperature v charging_duration battery_capacity energy_stress →
     a ∈ detect_abuse_actions soc_end soc_diff charging_rate c_rate
        temperature v' charging_duration battery_capacity energy_stress) ∧
    (a ∈ detect_abuse_actions soc_end soc_diff charging_rate c_rate
        temperature thermal_load charging_duration v' energy_stress →
     a ∈ detect_abuse_actions soc_end soc_diff charging_rate c_rate
        temperature thermal_load charging_duration v energy_stress) :=
  ⟨fun ha => detect_mono le_rfl le_rfl le_rfl hv le_rfl le_rfl le_rfl
      le_rfl ha,
   fun ha => detect_mono hv le_rfl le_rfl le_rfl le_rfl le_rfl le_rfl
      le_rfl ha,
   fun ha => detect_mono le_rfl hv le_rfl le_rfl le_rfl le_rfl le_rfl
      le_rfl ha,
   fun ha => detect_mono le_rfl le_rfl le_rfl le_rfl le_rfl hv le_rfl
      le_rfl ha,
   fun ha => detect_mono le_rfl le_rfl le_rfl le_rfl le_rfl le_rfl
      le_rfl hv ha,
   fun ha => detect_mono le_rfl le_rfl hv le_rfl le_rfl le_rfl le_rfl
      le_rfl ha,
   fun ha => detect_mono le_rfl le_rfl le_rfl le_rfl hv le_rfl le_rfl
      le_rfl ha,
   fun ha => detect_mono le_rfl le_rfl le_rfl le_rfl le_rfl le_rfl hv
      le_rfl ha⟩

/-- C10 witness: the temperature conjunct at a concrete pair. -/
theorem detect_monotone_each_input_witness :
    (46 : ℚ) ≤ 50 ∧
    "High Temperature Charging" ∈ detect_abuse_actions 55 30 40 (3/5) 50
        150 2 80 1 :=
  ⟨by norm_num,
   (detect_monotone_each_input 55 30 40 (3/5) 46 150 2 80 1 46 50
      "High Temperature Charging" (by norm_num)).1 (by decide)⟩

end EVCharging
